import Mathlib

/-!
Verification of the request-authorization core of the MCP server
(`mcp_server.py`): credential extraction with header/URL fallback, the
authorization gate, routing, and the tool executor, together with the
response envelopes they produce.

Conventions of the embedding:
* Strings are manipulated through their character lists so that every
  operation is structurally recursive and evaluates by `decide`/`rfl`.
* The configured credential set (`authorized_keys`, built by `set(args.keys)`)
  is carried as the list of configured key strings; only emptiness and
  membership of the set are ever consulted, and both agree with the list.
* JSON values decoded by `json.loads` are modelled by the inductive `Jval`;
  an unparseable body is modelled as `Option.none` at the call site.
* Python truthiness of an optional string (`if auth_header:` and
  `if not auth_key:`) is significant: `None` and the empty string are both
  falsy, and the embedding reproduces that.
-/

/-- Split a character list at every occurrence of `sep`
(the behaviour of the Python `str.split` with a one-character separator:
an empty input yields one empty field). -/
def splitOnChar (sep : Char) : List Char → List (List Char)
  | [] => [[]]
  | c :: rest =>
    if c = sep then [] :: splitOnChar sep rest
    else
      match splitOnChar sep rest with
      | [] => [[c]]
      | g :: gs => (c :: g) :: gs

/-- Everything strictly before the first occurrence of `sep` (whole list if absent). -/
def beforeChar (sep : Char) : List Char → List Char
  | [] => []
  | c :: rest => if c = sep then [] else c :: beforeChar sep rest

/-- Everything strictly after the first occurrence of `sep`, if it occurs. -/
def afterChar (sep : Char) : List Char → Option (List Char)
  | [] => none
  | c :: rest => if c = sep then some rest else afterChar sep rest

/-- Split at the first occurrence of a separator character, like the Python
`str.split(sep, 1)` when the separator occurs: `none` when it does not. -/
def partitionAt (sep : Char) : List Char → Option (List Char × List Char)
  | [] => none
  | c :: rest =>
    if c = sep then some ([], rest)
    else (partitionAt sep rest).map (fun p => (c :: p.1, p.2))

/-- Numeric value of a hexadecimal digit. -/
def hexVal (c : Char) : Option Nat :=
  if '0' ≤ c ∧ c ≤ '9' then some (c.toNat - '0'.toNat)
  else if 'a' ≤ c ∧ c ≤ 'f' then some (c.toNat - 'a'.toNat + 10)
  else if 'A' ≤ c ∧ c ≤ 'F' then some (c.toNat - 'A'.toNat + 10)
  else none

/-- Percent-decoding as performed by `urllib.parse.unquote`: a valid `%XY`
escape becomes the character with code `16*X + Y`, an invalid escape is kept
literally and scanning resumes right after the `%`. Each escaped byte is
modelled as one code point (the multi-byte UTF-8 recombination of the
library never differs on the ASCII escapes relevant here). -/
def pctDecode : List Char → List Char
  | [] => []
  | '%' :: a :: b :: rest =>
    match hexVal a, hexVal b with
    | some x, some y => Char.ofNat (16 * x + y) :: pctDecode rest
    | _, _ => '%' :: pctDecode (a :: b :: rest)
  | c :: rest => c :: pctDecode rest

/-- `urllib.parse.parse_qsl` applies `.replace(..)` of plus by space and then
unquotes; this composes the two. -/
def unquotePlus (l : List Char) : List Char :=
  pctDecode (l.map (fun c => if c = '+' then ' ' else c))

/-- `urllib.parse.parse_qsl` with the default arguments (`keep_blank_values`
false, separator the ampersand): empty fields are skipped, fields without an
equals sign are skipped, fields whose raw value is empty are skipped, and the
surviving names and values are plus/percent decoded, in order. -/
def parse_qsl (qs : String) : List (String × String) :=
  (splitOnChar '&' qs.data).filterMap (fun field =>
    if field = [] then none
    else
      match partitionAt '=' field with
      | none => none
      | some (n, v) =>
        if v = [] then none
        else some (String.mk (unquotePlus n), String.mk (unquotePlus v)))

/-- `urllib.parse.urlparse(path).query` for an origin-form request target:
the fragment is everything after the first hash sign, the query everything
after the first question mark of what precedes the fragment. (The scheme and
netloc handling of the library function never fires on a request-line path,
and the tab/CR/LF stripping it performs cannot fire because those characters
cannot survive request-line parsing.) -/
def urlQuery (path : String) : String :=
  String.mk ((afterChar '?' (beforeChar '#' path.data)).getD [])

/-- Cut a character list at the first semicolon. -/
def dropFromSemi : List Char → List Char
  | [] => []
  | c :: rest => if c = ';' then [] else c :: dropFromSemi rest

/-- `urlparse` separates the drag-along `;params` from the path: the first
semicolon at or after the last slash (or the first semicolon anywhere when
there is no slash) starts the params. -/
def stripParams (p : List Char) : List Char :=
  if p.contains '/' then
    let lastSeg := (p.reverse.takeWhile (fun c => c ≠ '/')).reverse
    p.take (p.length - lastSeg.length) ++ dropFromSemi lastSeg
  else dropFromSemi p

/-- `urllib.parse.urlparse(path).path` for an origin-form request target. -/
def urlPathStr (path : String) : String :=
  String.mk (stripParams (beforeChar '?' (beforeChar '#' path.data)))

/-- Whether `needle` occurs contiguously in the haystack; embeds the Python
substring test `needle in haystack`. -/
def isSubstring (needle : List Char) : List Char → Bool
  | [] => needle.isEmpty
  | c :: rest => needle.isPrefixOf (c :: rest) || isSubstring needle rest

/-- `h.startswith(p)` on Python strings. -/
def strStartsWith (h p : String) : Bool :=
  p.data.isPrefixOf h.data

/-- `h[n:]` on a Python string (drop the first `n` code points). -/
def strDrop (h : String) (n : Nat) : String :=
  String.mk (h.data.drop n)

/-- The per-request data the authorization core consults: the value of the
`Authorization` header as returned by `self.headers.get` (`none` when the
header is absent) and the raw request target `self.path` (path plus query
string as sent in the request line). -/
structure Request where
  authHeader : Option String
  path : String
deriving Repr, DecidableEq

/-- Python truthiness of `self.headers.get(..)`: `None` and the empty string
are falsy. -/
def truthy : Option String → Bool
  | none => false
  | some s => s ≠ ""

/-- First value of a query parameter, as the handler reads it:
`query_params = parse_qs(urlparse(self.path).query)` followed by
`name in query_params and query_params[name]` and then `[0]`. With the
default `parse_qs`, a name is present exactly when it has at least one
non-blank value, and the first such value is taken. -/
def query_params_first (path : String) (name : String) : Option String :=
  ((parse_qsl (urlQuery path)).filter (fun p => p.1 == name)).head?.map (fun p => p.2)

/-- The URL-parameter fallback of `extract_authorization_key`: parameter
`key` first, then parameter `auth`. -/
def extractFromQuery (r : Request) : Option String :=
  match query_params_first r.path "key" with
  | some k => some k
  | none => query_params_first r.path "auth"

/-- `MCPServerHandler.extract_authorization_key`: a truthy `Authorization`
header wins, with the literal 7-character strip for values starting with
`Bearer ` or `ApiKey ` (trailing space included); otherwise the URL-parameter
fallback. -/
def extract_authorization_key (r : Request) : Option String :=
  match r.authHeader with
  | some h =>
    if h ≠ "" then
      if strStartsWith h "Bearer " then some (strDrop h 7)
      else if strStartsWith h "ApiKey " then some (strDrop h 7)
      else some h
    else extractFromQuery r
  | none => extractFromQuery r

/-- `MCPServerHandler.is_authorized`: an empty configured set allows
everything; otherwise the extracted key must be truthy (`if not auth_key`
rejects both `None` and the empty string) and a member of the set. -/
def is_authorized (authorized_keys : List String) (r : Request) : Bool :=
  if authorized_keys.isEmpty then true
  else
    match extract_authorization_key r with
    | none => false
    | some k => if k = "" then false else authorized_keys.contains k

/-- JSON values as decoded by `json.loads` and as assembled for responses
(the server never receives or emits fractional numbers in the modelled
interactions, so numbers are integers). -/
inductive Jval where
  | str : String → Jval
  | num : Int → Jval
  | jbool : Bool → Jval
  | null : Jval
  | arr : List Jval → Jval
  | obj : List (String × Jval) → Jval
deriving Repr

/-- `d.get(k)` on a decoded JSON object: the value of the first binding of
`k` (decoded dicts bind each key once), `none` when absent. -/
def dictGet (fields : List (String × Jval)) (k : String) : Option Jval :=
  match fields.find? (fun p => p.1 == k) with
  | some p => some p.2
  | none => none

/-- A single-quote character, used by the Python `repr` of strings. -/
def pyQuote : String := String.singleton (Char.ofNat 39)

mutual
/-- Python `repr` of a decoded JSON value, for values nested inside a dict
display (quote-escaping inside string contents is not modelled; no consulted
string contains a quote). -/
def pyReprJ : Jval → String
  | .str s => pyQuote ++ s ++ pyQuote
  | .num n => toString n
  | .jbool true => "True"
  | .jbool false => "False"
  | .null => "None"
  | .arr xs => "[" ++ pyReprItems xs ++ "]"
  | .obj fields => "\x7b" ++ pyReprFields fields ++ "\x7d"

/-- Comma-separated `repr` of list items. -/
def pyReprItems : List Jval → String
  | [] => ""
  | [v] => pyReprJ v
  | v :: w :: rest => pyReprJ v ++ ", " ++ pyReprItems (w :: rest)

/-- Comma-separated `repr` of dict items. -/
def pyReprFields : List (String × Jval) → String
  | [] => ""
  | [p] => pyQuote ++ p.1 ++ pyQuote ++ ": " ++ pyReprJ p.2
  | p :: q :: rest => pyQuote ++ p.1 ++ pyQuote ++ ": " ++ pyReprJ p.2 ++ ", " ++ pyReprFields (q :: rest)
end

/-- Python `str` of the value `data.get(..)` returned, as interpolated by the
f-string of the unknown-tool message: an absent key and JSON `null` both read
`None`; a string interpolates verbatim; other values use their `repr`. -/
def pyStr : Option Jval → String
  | none => "None"
  | some (.str s) => s
  | some .null => "None"
  | some v => pyReprJ v

/-- The Python comparison `tool_name == lit` for a string literal `lit`:
true exactly when the value is that string. -/
def jvalIsStr : Option Jval → String → Bool
  | some (.str s), t => s == t
  | _, _ => false

/-- An HTTP response as the handler assembles it: status code, the headers
added by `send_header`, and the JSON body written to the wire (`none` when no
body is written). The `Server`/`Date` headers added by the framework itself
are outside the handler and not modelled. -/
structure Response where
  status : Nat
  headers : List (String × String)
  body : Option Jval
deriving Repr

/-- The three CORS headers the handler adds. -/
def corsHeaders : List (String × String) :=
  [("Access-Control-Allow-Origin", "*"),
   ("Access-Control-Allow-Methods", "GET, POST, OPTIONS"),
   ("Access-Control-Allow-Headers", "Content-Type, Authorization")]

/-- `MCPServerHandler.send_json_response`: given status, then Content-Type
and the CORS headers, then the JSON-encoded data as body. -/
def send_json_response (data : Jval) (status_code : Nat) : Response :=
  { status := status_code,
    headers := ("Content-Type", "application/json") :: corsHeaders,
    body := some data }

/-- `MCPServerHandler.send_error_response`: the structured error envelope,
with the same integer as HTTP status and as the `status` field. -/
def send_error_response (message : String) (status_code : Nat) : Response :=
  send_json_response (.obj [("error", .str message), ("status", .num status_code)]) status_code

/-- `MCPServerHandler.do_OPTIONS`: a 200 with the CORS headers and no body;
note that neither `Content-Type` nor the authorization gate is involved. -/
def do_OPTIONS : Response :=
  { status := 200, headers := corsHeaders, body := none }

/-- The `method_used` / `authorization_method` computation duplicated in the
`/auth-test` handler and the `auth_info` tool: a truthy header reads
`header`; otherwise a raw substring test on `self.path` decides between the
two URL-parameter answers. -/
def auth_method (r : Request) : String :=
  if truthy r.authHeader then "header"
  else if isSubstring "key=".data r.path.data then "url_parameter_key"
  else if isSubstring "auth=".data r.path.data then "url_parameter_auth"
  else "none"

/-- The Python membership test `auth_key in self.authorized_keys` for an
optional extracted key: `None` is in no set of strings. -/
def optMem (k : Option String) (authorized_keys : List String) : Bool :=
  match k with
  | some s => authorized_keys.contains s
  | none => false

/-- The `key_valid` computation shared by `/auth-test` and `auth_info`:
`auth_key in self.authorized_keys if self.authorized_keys else True`. -/
def key_valid (authorized_keys : List String) (r : Request) : Bool :=
  if authorized_keys.isEmpty then true
  else optMem (extract_authorization_key r) authorized_keys

/-- The body served at `GET /`. -/
def rootInfo : Jval :=
  .obj [("name", .str "MCP Server with Authorization Fallback"),
        ("version", .str "1.0.0"),
        ("description", .str "Model Context Protocol server with header and URL parameter authorization fallback"),
        ("authorization_methods", .arr
          [.str "Authorization header (Bearer <token>)",
           .str "Authorization header (ApiKey <key>)",
           .str "URL parameter (?key=<key>)",
           .str "URL parameter (?auth=<key>)"]),
        ("endpoints", .obj
          [("/", .str "Server information"),
           ("/health", .str "Health check"),
           ("/tools", .str "Available tools"),
           ("/auth-test", .str "Test authorization")])]

/-- The body served at `GET /tools`: the static tool registry. -/
def toolsBody : Jval :=
  .obj [("tools", .arr
    [.obj [("name", .str "echo"),
           ("description", .str "Echo back the provided message"),
           ("parameters", .obj
             [("message", .obj [("type", .str "string"), ("required", .jbool true)])])],
     .obj [("name", .str "auth_info"),
           ("description", .str "Show information about the authorization method used"),
           ("parameters", .obj [])]])]

/-- The body served at `GET /health` for timestamp `now`. -/
def healthBody (now : String) : Jval :=
  .obj [("status", .str "healthy"),
        ("timestamp", .str now),
        ("authorized", .jbool true)]

/-- The body served at `GET /auth-test`. -/
def authTestBody (authorized_keys : List String) (r : Request) : Jval :=
  .obj [("authorized", .jbool true),
        ("method_used", .str (auth_method r)),
        ("key_present", .jbool (extract_authorization_key r).isSome),
        ("key_valid", .jbool (key_valid authorized_keys r))]

/-- `MCPServerHandler.do_GET`: the authorization gate first (401 envelope on
denial), then dispatch on `urlparse(self.path).path`. The source binds the
parsed path to a local variable; it is inlined here. -/
def do_GET (authorized_keys : List String) (r : Request) (now : String) : Response :=
  if is_authorized authorized_keys r then
    if urlPathStr r.path = "/" then send_json_response rootInfo 200
    else if urlPathStr r.path = "/health" then send_json_response (healthBody now) 200
    else if urlPathStr r.path = "/tools" then send_json_response toolsBody 200
    else if urlPathStr r.path = "/auth-test" then
      send_json_response (authTestBody authorized_keys r) 200
    else send_error_response "Not Found" 404
  else send_error_response "Unauthorized: Invalid or missing authorization key" 401

/-- The response body of the `echo` tool. -/
def echoBody (message : Jval) (now : String) : Jval :=
  .obj [("tool", .str "echo"),
        ("result", .obj [("echoed_message", message), ("timestamp", .str now)])]

/-- The response body of the `auth_info` tool. -/
def authInfoBody (authorized_keys : List String) (r : Request) (now : String) : Jval :=
  .obj [("tool", .str "auth_info"),
        ("result", .obj
          [("authorization_method", .str (auth_method r)),
           ("key_present", .jbool (extract_authorization_key r).isSome),
           ("key_valid", .jbool (key_valid authorized_keys r)),
           ("timestamp", .str now)])]

/-- `MCPServerHandler.handle_tool_execution` on the decoded body `data`.
`data.get` on a non-dict raises `AttributeError`, as does
`parameters.get` when the `parameters` entry is present but not a dict;
both are caught by the outermost handler of `do_POST` and become the
generic 500 envelope, which is folded in here since the resulting response
is the same. The source reads `data.get(..)` for the parameters before
branching on the tool name, but only the `echo` branch consults it. -/
def handle_tool_execution (authorized_keys : List String) (r : Request) (data : Jval)
    (now : String) : Response :=
  match data with
  | .obj fields =>
    if jvalIsStr (dictGet fields "tool") "echo" then
      match dictGet fields "parameters" with
      | none => send_json_response (echoBody (.str "No message provided") now) 200
      | some (.obj pfields) =>
        send_json_response
          (echoBody ((dictGet pfields "message").getD (.str "No message provided")) now) 200
      | some _ => send_error_response "Internal server error" 500
    else if jvalIsStr (dictGet fields "tool") "auth_info" then
      send_json_response (authInfoBody authorized_keys r now) 200
    else
      send_error_response ("Unknown tool: " ++ pyStr (dictGet fields "tool")) 400
  | _ => send_error_response "Internal server error" 500

/-- `MCPServerHandler.do_POST`: the authorization gate first, then the body
is JSON-decoded (the argument `body` is the outcome of `json.loads`; `none`
models a `JSONDecodeError`, answered 400 before the path is examined), then
dispatch on the parsed path. Low-level read failures (the remaining 500
path of the source) are outside the model. -/
def do_POST (authorized_keys : List String) (r : Request) (body : Option Jval)
    (now : String) : Response :=
  if is_authorized authorized_keys r then
    match body with
    | none => send_error_response "Invalid JSON in request body" 400
    | some data =>
      if urlPathStr r.path = "/execute" then
        handle_tool_execution authorized_keys r data now
      else send_error_response "Endpoint not found" 404
  else send_error_response "Unauthorized: Invalid or missing authorization key" 401

/-- Dispatch by HTTP method, as `BaseHTTPRequestHandler` selects `do_GET`,
`do_POST` or `do_OPTIONS` by exact method name; any other method is answered
by the framework itself (501) outside the handler, modelled as `none`. -/
def handle_request (authorized_keys : List String) (method : String) (r : Request)
    (body : Option Jval) (now : String) : Option Response :=
  if method = "GET" then some (do_GET authorized_keys r now)
  else if method = "POST" then some (do_POST authorized_keys r body now)
  else if method = "OPTIONS" then some do_OPTIONS
  else none

/-- Top-level field of a JSON-object response body. -/
def respField (resp : Response) (k : String) : Option Jval :=
  match resp.body with
  | some (.obj fields) => dictGet fields k
  | _ => none

/-- Field of the `result` object inside a tool response body. -/
def resultField (resp : Response) (k : String) : Option Jval :=
  match respField resp "result" with
  | some (.obj fields) => dictGet fields k
  | _ => none

/-- CredentialExtractor as claim C2 words it: an `Authorization` header that
is present always wins (with the prefix stripping), and only an absent
header reaches the `key` / `auth` URL-parameter fallback. -/
def extractClaimed (r : Request) : Option String :=
  match r.authHeader with
  | some h =>
    if strStartsWith h "Bearer " then some (strDrop h 7)
    else if strStartsWith h "ApiKey " then some (strDrop h 7)
    else some h
  | none => extractFromQuery r

/-- CredentialExtractor as amended: only a present **non-empty** header
short-circuits; an absent or empty header reaches the URL-parameter
fallback. -/
def extractAmended (r : Request) : Option String :=
  match r.authHeader with
  | some h =>
    if h = "" then extractFromQuery r
    else if strStartsWith h "Bearer " then some (strDrop h 7)
    else if strStartsWith h "ApiKey " then some (strDrop h 7)
    else some h
  | none => extractFromQuery r

/-- AuthorizationGate as claim C1 words it: allowed exactly when the
configured set is empty or the extracted credential is a member. -/
def authorizeClaimed (authorized_keys : List String) (r : Request) : Bool :=
  authorized_keys.isEmpty || optMem (extract_authorization_key r) authorized_keys

/-- Claim C1, counterexample: with the configured credential set holding
exactly the empty string and an `Authorization` header that is literally
`Bearer ` (so the extracted credential is the empty string, a member of the
set under exact string equality), `is_authorized` still denies, because the
falsiness test that the claim reads as "no credential extracted" also
rejects an extracted empty string. -/
theorem C1_counterexample :
    is_authorized [""] ⟨some "Bearer ", "/"⟩ = false
    ∧ extract_authorization_key ⟨some "Bearer ", "/"⟩ = some ""
    ∧ optMem (extract_authorization_key ⟨some "Bearer ", "/"⟩) [""] = true
    ∧ authorizeClaimed [""] ⟨some "Bearer ", "/"⟩ = true := by decide

/-- Claim C1 (amended): `is_authorized` returns true iff the configured
credential set is empty, or extraction yields a **non-empty** credential
string that is a member of the set under exact string equality; in
particular, with a non-empty set and no credential extracted (or an
empty-string credential extracted), authorization is denied. -/
theorem C1_is_authorized_iff (authorized_keys : List String) (r : Request) :
    is_authorized authorized_keys r = true ↔
      (authorized_keys = []
       ∨ ∃ k, extract_authorization_key r = some k ∧ k ≠ "" ∧ k ∈ authorized_keys) := by
  unfold is_authorized
  by_cases hk : authorized_keys.isEmpty = true
  · simp [hk, List.isEmpty_iff.mp hk]
  · have hne : authorized_keys ≠ [] := fun h => hk (by simp [h])
    cases hx : extract_authorization_key r with
    | none => simp [hk, hx, hne]
    | some k =>
      by_cases hks : k = ""
      · subst hks; simp [hk, hx, hne]
      · simp [hk, hx, hks, hne, List.elem_iff]

/-- Claim C2, counterexample: a request carrying a present but empty
`Authorization` header together with `?key=foo` extracts `foo` from the
query parameter — the header being present is not enough to stop the
fallback, against the claimed precedence. -/
theorem C2_counterexample :
    extract_authorization_key ⟨some "", "/t?key=foo"⟩ = some "foo"
    ∧ extractClaimed ⟨some "", "/t?key=foo"⟩ = some ""
    ∧ extract_authorization_key ⟨some "", "/t?key=foo"⟩
        ≠ extractClaimed ⟨some "", "/t?key=foo"⟩ := by decide

/-- Claim C2 (amended): extraction follows the fixed precedence with
"present" strengthened to "present and non-empty": a non-empty
`Authorization` header is used (stripping a `Bearer ` or `ApiKey ` prefix,
else taken verbatim) and query parameters are never consulted; otherwise
the first non-blank value of query parameter `key`, then of `auth`, else
absent. -/
theorem C2_extract_precedence (r : Request) :
    extract_authorization_key r = extractAmended r := by
  rcases r with ⟨ah, p⟩
  cases ah with
  | none => rfl
  | some h =>
    by_cases hh : h = ""
    · subst hh; rfl
    · simp [extract_authorization_key, extractAmended, hh]

/-- Claim C3, counterexample: a header value that starts with the text
`Bearer` but not with `Bearer ` (no space) is returned verbatim — it does
not lose its first 7 characters as the claim states. -/
theorem C3_counterexample :
    extract_authorization_key ⟨some "Bearerxyz123", "/"⟩ = some "Bearerxyz123"
    ∧ strDrop "Bearerxyz123" 7 = "yz123"
    ∧ ("Bearerxyz123" : String) ≠ "yz123" := by decide

/-- Claim C3 (amended): for a non-empty `Authorization` header value, the
first 7 characters are dropped exactly when the value starts with
`Bearer ` or `ApiKey ` **including the trailing space** (so a credential
that itself starts with that text, such as `Bearer abc`, is corrupted);
a value merely starting with `Bearer` or `ApiKey` without the space is
returned verbatim. -/
theorem C3_prefix_strip_needs_space (h p : String) (hne : h ≠ "") :
    extract_authorization_key ⟨some h, p⟩ =
      some (if strStartsWith h "Bearer " || strStartsWith h "ApiKey "
            then strDrop h 7 else h) := by
  unfold extract_authorization_key
  cases hA : strStartsWith h "Bearer " <;> cases hB : strStartsWith h "ApiKey " <;>
    simp [hne, hA, hB]

/-- Claim C3 witness: the amended statement at the concrete headers
`Bearer abc` (space: stripped) and at `/`. -/
theorem C3_witness :
    extract_authorization_key ⟨some "Bearer abc", "/"⟩ = some "abc" :=
  (C3_prefix_strip_needs_space "Bearer abc" "/" (by decide)).trans (by decide)

/-- Claim C4 (confirmed): every OPTIONS request, whatever the configured
credential set, the credential presented, the body or the clock, is answered
200 with the permissive CORS headers and no body; and the response is
identical under any other credential set (in particular one that would deny
the same request on GET or POST), so the authorization gate cannot have been
consulted. -/
theorem C4_options_bypasses_authorization (authorized_keys ks : List String)
    (r : Request) (body body2 : Option Jval) (now now2 : String) :
    handle_request authorized_keys "OPTIONS" r body now =
      some { status := 200, headers := corsHeaders, body := none }
    ∧ handle_request authorized_keys "OPTIONS" r body now =
        handle_request ks "OPTIONS" r body2 now2 :=
  ⟨rfl, rfl⟩

/-- Claim C5, counterexample: an authorized POST to a path other than
`/execute` whose body fails JSON decoding is answered 400 (invalid JSON),
not 404 — the body is parsed before the path is routed. -/
theorem C5_counterexample :
    is_authorized [] ⟨none, "/other"⟩ = true
    ∧ urlPathStr "/other" ≠ "/execute"
    ∧ (do_POST [] ⟨none, "/other"⟩ none "t").status = 400
    ∧ (do_POST [] ⟨none, "/other"⟩ none "t").body
        = some (.obj [("error", .str "Invalid JSON in request body"), ("status", .num 400)]) := by
  refine ⟨by decide, by decide, rfl, rfl⟩

/-- Claim C5 (amended): for every authorized POST request whose path is not
`/execute` and whose body decodes as JSON, the response is a 404 with a
structured error envelope; a body that fails to decode is instead answered
400 before the path is consulted. -/
theorem C5_post_unknown_path_404 (authorized_keys : List String) (r : Request)
    (d : Jval) (now : String)
    (hauth : is_authorized authorized_keys r = true)
    (hpath : urlPathStr r.path ≠ "/execute") :
    do_POST authorized_keys r (some d) now =
      { status := 404,
        headers := ("Content-Type", "application/json") :: corsHeaders,
        body := some (.obj [("error", .str "Endpoint not found"), ("status", .num 404)]) } := by
  unfold do_POST
  simp [hauth, hpath, send_error_response, send_json_response]

/-- Claim C5 witness: the amended statement at a concrete authorized POST
to `/x` with a JSON-decodable body. -/
theorem C5_witness :
    do_POST [] ⟨none, "/x"⟩ (some .null) "t" =
      { status := 404,
        headers := ("Content-Type", "application/json") :: corsHeaders,
        body := some (.obj [("error", .str "Endpoint not found"), ("status", .num 404)]) } :=
  C5_post_unknown_path_404 [] ⟨none, "/x"⟩ .null "t" (by decide) (by decide)

/-- Claim C6, counterexample: a GET `/auth-test?key=` request (blank `key`
value, no header) extracts no credential at all, yet `method_used` is
reported as `url_parameter_key` — the report comes from a raw substring
test on the path, not from the extraction method that produced the
credential, which per the claim should read `none` here. -/
theorem C6_counterexample :
    extract_authorization_key ⟨none, "/auth-test?key="⟩ = none
    ∧ respField (do_GET [] ⟨none, "/auth-test?key="⟩ "t") "method_used"
        = some (.str "url_parameter_key")
    ∧ ("url_parameter_key" : String) ≠ "none" := by
  refine ⟨rfl, rfl, by decide⟩

/-- Claim C6 (amended): for every authorized GET `/auth-test` request, the
`method_used` field is computed syntactically — `header` if a non-empty
`Authorization` header is present, else `url_parameter_key` if the raw path
contains the substring `key=`, else `url_parameter_auth` if it contains
`auth=`, else `none` (this agrees with the producing extraction method in
the ordinary cases but not always, e.g. on blank or lookalike parameters) —
and `key_present` equals whether `extract_authorization_key` yielded a
credential. -/
theorem C6_auth_test_reports (authorized_keys : List String) (r : Request)
    (now : String)
    (hauth : is_authorized authorized_keys r = true)
    (hpath : urlPathStr r.path = "/auth-test") :
    do_GET authorized_keys r now =
      send_json_response
        (.obj [("authorized", .jbool true),
               ("method_used", .str
                 (if truthy r.authHeader then "header"
                  else if isSubstring "key=".data r.path.data then "url_parameter_key"
                  else if isSubstring "auth=".data r.path.data then "url_parameter_auth"
                  else "none")),
               ("key_present", .jbool (extract_authorization_key r).isSome),
               ("key_valid", .jbool (key_valid authorized_keys r))]) 200 := by
  unfold do_GET authTestBody auth_method
  rw [hpath]
  simp [hauth]

/-- Claim C6 witness: the amended statement at a concrete credential-free
GET `/auth-test`. -/
theorem C6_witness :
    do_GET [] ⟨none, "/auth-test"⟩ "t" =
      send_json_response
        (.obj [("authorized", .jbool true),
               ("method_used", .str "none"),
               ("key_present", .jbool false),
               ("key_valid", .jbool true)]) 200 :=
  (C6_auth_test_reports [] ⟨none, "/auth-test"⟩ "t" (by decide) (by decide)).trans (by rfl)

/-- Claim C7, counterexample: the OPTIONS preflight response — a response
the server sends — carries the CORS headers but not
`Content-Type: application/json`. -/
theorem C7_counterexample :
    handle_request [] "OPTIONS" ⟨none, "/"⟩ none "t" = some do_OPTIONS
    ∧ ("Content-Type", "application/json") ∉ do_OPTIONS.headers
    ∧ (("Access-Control-Allow-Origin", "*") ∈ do_OPTIONS.headers) := by
  refine ⟨rfl, by decide, by decide⟩

/-- Every GET response is assembled by `send_json_response` and so carries
exactly the Content-Type header followed by the CORS headers. -/
theorem do_GET_headers (authorized_keys : List String) (r : Request) (now : String) :
    (do_GET authorized_keys r now).headers
      = ("Content-Type", "application/json") :: corsHeaders := by
  unfold do_GET
  split_ifs <;> rfl

/-- Every tool-execution response is assembled by `send_json_response`. -/
theorem handle_tool_execution_headers (authorized_keys : List String) (r : Request)
    (data : Jval) (now : String) :
    (handle_tool_execution authorized_keys r data now).headers
      = ("Content-Type", "application/json") :: corsHeaders := by
  unfold handle_tool_execution
  cases data with
  | obj fields =>
    by_cases h1 : jvalIsStr (dictGet fields "tool") "echo" = true
    · simp only [h1, if_true]
      cases hp : dictGet fields "parameters" with
      | none => rfl
      | some v => cases v <;> rfl
    · by_cases h2 : jvalIsStr (dictGet fields "tool") "auth_info" = true
      · simp [h1, h2]; rfl
      · simp [h1, h2]; rfl
  | str s => rfl
  | num n => rfl
  | jbool b => rfl
  | null => rfl
  | arr xs => rfl

/-- Every POST response is assembled by `send_json_response`. -/
theorem do_POST_headers (authorized_keys : List String) (r : Request)
    (body : Option Jval) (now : String) :
    (do_POST authorized_keys r body now).headers
      = ("Content-Type", "application/json") :: corsHeaders := by
  unfold do_POST
  by_cases hauth : is_authorized authorized_keys r = true
  · simp only [hauth, if_true]
    cases body with
    | none => rfl
    | some data =>
      by_cases hp : urlPathStr r.path = "/execute"
      · simp only [hp, if_true]
        exact handle_tool_execution_headers authorized_keys r data now
      · simp [hp]; rfl
  · simp [hauth]; rfl

/-- Claim C7 (amended): every response the handler sends to a GET or POST
request — success or error envelope — carries
`Content-Type: application/json` followed by the three permissive CORS
headers; the OPTIONS preflight response carries the three CORS headers but
no `Content-Type`. -/
theorem C7_response_headers (authorized_keys : List String) (method : String)
    (r : Request) (body : Option Jval) (now : String) (resp : Response)
    (h : handle_request authorized_keys method r body now = some resp) :
    resp.headers = if method = "OPTIONS" then corsHeaders
                   else ("Content-Type", "application/json") :: corsHeaders := by
  unfold handle_request at h
  by_cases h1 : method = "GET"
  · subst h1
    simp only [reduceIte] at h
    obtain rfl := Option.some.inj h
    simpa using do_GET_headers authorized_keys r now
  · by_cases h2 : method = "POST"
    · subst h2
      simp only [reduceIte] at h
      obtain rfl := Option.some.inj h
      simpa using do_POST_headers authorized_keys r body now
    · by_cases h3 : method = "OPTIONS"
      · subst h3
        simp only [reduceIte] at h
        obtain rfl := Option.some.inj h
        simp [do_OPTIONS]
      · simp [h1, h2, h3] at h

/-- Claim C7 witness: the amended statement read off at a concrete GET and
the concrete OPTIONS response. -/
theorem C7_witness :
    (do_GET [] ⟨none, "/health"⟩ "t").headers
      = ("Content-Type", "application/json") :: corsHeaders := by
  have h := C7_response_headers [] "GET" ⟨none, "/health"⟩ none "t"
    (do_GET [] ⟨none, "/health"⟩ "t") rfl
  simpa using h

/-- Claim C8 (confirmed): an authorized POST `/execute` with a decoded JSON
object body whose tool name is a string other than `echo` and `auth_info`
is answered with the error envelope naming the unrecognized tool, and the
integer 400 appears both as the HTTP status and as the envelope `status`
field. -/
theorem C8_unknown_tool (authorized_keys : List String) (r : Request)
    (fields : List (String × Jval)) (s now : String)
    (hauth : is_authorized authorized_keys r = true)
    (hpath : urlPathStr r.path = "/execute")
    (htool : dictGet fields "tool" = some (.str s))
    (h1 : s ≠ "echo") (h2 : s ≠ "auth_info") :
    do_POST authorized_keys r (some (.obj fields)) now =
      { status := 400,
        headers := ("Content-Type", "application/json") :: corsHeaders,
        body := some (.obj [("error", .str ("Unknown tool: " ++ s)),
                            ("status", .num 400)]) } := by
  unfold do_POST handle_tool_execution
  simp [hauth, hpath, htool, jvalIsStr, h1, h2, pyStr,
    send_error_response, send_json_response]

/-- Claim C8 witness: the statement at the concrete tool name
`nonexistent`. -/
theorem C8_witness :
    do_POST [] ⟨none, "/execute"⟩ (some (.obj [("tool", .str "nonexistent")])) "t" =
      { status := 400,
        headers := ("Content-Type", "application/json") :: corsHeaders,
        body := some (.obj [("error", .str ("Unknown tool: " ++ "nonexistent")),
                            ("status", .num 400)]) } :=
  C8_unknown_tool [] ⟨none, "/execute"⟩ [("tool", .str "nonexistent")] "nonexistent" "t"
    (by decide) (by decide) rfl (by decide) (by decide)

/-- Claim C9 (confirmed): an authorized POST `/execute` invoking the `echo`
tool answers 200, with `echoed_message` equal to the `message` parameter
when present and equal to the fixed placeholder `No message provided` when
the parameter (or the whole `parameters` object) is absent — a missing
message is not an error. -/
theorem C9_echo (authorized_keys : List String) (r : Request)
    (fields pfields : List (String × Jval)) (now : String)
    (hauth : is_authorized authorized_keys r = true)
    (hpath : urlPathStr r.path = "/execute")
    (htool : dictGet fields "tool" = some (.str "echo"))
    (hparams : dictGet fields "parameters" = some (.obj pfields)
               ∨ (dictGet fields "parameters" = none ∧ pfields = [])) :
    do_POST authorized_keys r (some (.obj fields)) now =
      { status := 200,
        headers := ("Content-Type", "application/json") :: corsHeaders,
        body := some (.obj [("tool", .str "echo"),
          ("result", .obj
            [("echoed_message",
              (dictGet pfields "message").getD (.str "No message provided")),
             ("timestamp", .str now)])]) } := by
  unfold do_POST handle_tool_execution
  have h1 : jvalIsStr (dictGet fields "tool") "echo" = true := by rw [htool]; rfl
  rcases hparams with hp | ⟨hp, rfl⟩
  · simp [hauth, hpath, h1, hp, echoBody, send_json_response]
  · simp [hauth, hpath, h1, hp, echoBody, send_json_response]
    try rfl

/-- Claim C9 witness: the statement at the concrete message `hi` and, for
the default, at an absent `parameters` object. -/
theorem C9_witness :
    do_POST [] ⟨none, "/execute"⟩
        (some (.obj [("tool", .str "echo"),
                     ("parameters", .obj [("message", .str "hi")])])) "t" =
      { status := 200,
        headers := ("Content-Type", "application/json") :: corsHeaders,
        body := some (.obj [("tool", .str "echo"),
          ("result", .obj [("echoed_message", .str "hi"),
                           ("timestamp", .str "t")])]) } := by
  have h := C9_echo [] ⟨none, "/execute"⟩
    [("tool", .str "echo"), ("parameters", .obj [("message", .str "hi")])]
    [("message", .str "hi")] "t" (by decide) (by decide) rfl (Or.inl rfl)
  exact h.trans (by rfl)

/-- Claim C10 (confirmed): the `key_valid` field reported by GET
`/auth-test` and by the `auth_info` tool is `True` unconditionally when the
configured credential set is empty — also for requests presenting a
credential belonging to no set — and is the membership test of the
extracted credential only when the set is non-empty. -/
theorem C10_key_valid_open_mode (authorized_keys : List String) (r : Request)
    (fields : List (String × Jval)) (now : String)
    (hauth : is_authorized authorized_keys r = true)
    (hpath : urlPathStr r.path = "/auth-test")
    (htool : dictGet fields "tool" = some (.str "auth_info")) :
    respField (do_GET authorized_keys r now) "key_valid"
      = some (.jbool (if authorized_keys.isEmpty then true
                      else optMem (extract_authorization_key r) authorized_keys))
    ∧ resultField (handle_tool_execution authorized_keys r (.obj fields) now) "key_valid"
      = some (.jbool (if authorized_keys.isEmpty then true
                      else optMem (extract_authorization_key r) authorized_keys)) := by
  constructor
  · unfold do_GET authTestBody key_valid
    rw [hpath]
    simp [hauth, respField, send_json_response, dictGet]
  · unfold handle_tool_execution
    have h1 : jvalIsStr (dictGet fields "tool") "echo" = false := by rw [htool]; rfl
    have h2 : jvalIsStr (dictGet fields "tool") "auth_info" = true := by rw [htool]; rfl
    simp only [h1, h2, reduceIte]
    rfl

/-- Claim C10 witness: open mode (empty credential set) with a presented
credential that belongs to no credential set still reports `key_valid`
true, on both endpoints. -/
theorem C10_witness :
    respField (do_GET [] ⟨some "bogus-credential", "/auth-test"⟩ "t") "key_valid"
      = some (.jbool true)
    ∧ resultField (handle_tool_execution [] ⟨some "bogus-credential", "/auth-test"⟩
        (.obj [("tool", .str "auth_info")]) "t") "key_valid"
      = some (.jbool true) := by
  have h := C10_key_valid_open_mode [] ⟨some "bogus-credential", "/auth-test"⟩
    [("tool", .str "auth_info")] "t" (by decide) (by decide) rfl
  exact ⟨h.1.trans (by rfl), h.2.trans (by rfl)⟩
